import Mathlib

/-!
Shallow embedding of `src/PyShopList.py`: a single-table shopping-list
store (`ShoppingList`, SQLite-backed in the source) and the pieces of the
Tk GUI layer (`ShoppingListGUI`) that the specification speaks about
(input validation in `add_item`, row rendering in `update_list`, and the
id parse performed by `delete_item` / `toggle_purchase`).

Modelling conventions:
* The SQLite table is a `List Item` plus the AUTOINCREMENT counter
  `nextId` (fresh ids are `1, 2, …`, never reused).
* `BOOLEAN` cells only ever receive Python `bool`s (stored as 0/1) and
  every read of `to_purchase` in the source is by Python truthiness, so
  the column is modelled as `Bool`.
* `REAL` cells are modelled as `Rat`; no caller ever stores or computes
  with a price, only `NULL` flows through this column.
* sqlite3 exceptions are modelled by `DBError`; a mutating operation
  returns the (possibly unchanged) table together with an
  `Except DBError` result, so "the table is unchanged" is statable.
-/

namespace PyShopList

/-- sqlite3 exception classes that the store can raise:
`IntegrityError` (UNIQUE constraint failed) and `OperationalError`
(no such column / SQL syntax error). -/
inductive DBError where
  | integrityError
  | operationalError
deriving Repr, DecidableEq

/-- Values a Python caller can bind into an SQL parameter. -/
inductive PyValue where
  | pyNone
  | pyBool (b : Bool)
  | pyInt (n : Int)
  | pyStr (s : String)
  | pyFloat (q : Rat)
deriving Repr, DecidableEq

/-- A persisted row of the `items` table (the `Item` dataclass as returned
by the SELECTs, where `id` is always set). -/
structure Item where
  id : Int
  quantity : Int
  description : String
  barcode : Option String
  last_price : Option Rat
  to_purchase : Bool
deriving Repr, DecidableEq

/-- The `Item` dataclass as passed to `ShoppingList.add_item` (its `id`
field is `None` there and ignored by the INSERT, so it is omitted). -/
structure NewItem where
  quantity : Int
  description : String
  barcode : Option String
  last_price : Option Rat
  to_purchase : Bool
deriving Repr, DecidableEq

/-- The store: the `items` table plus the AUTOINCREMENT sequence. -/
structure ShoppingList where
  items : List Item
  nextId : Int
deriving Repr, DecidableEq

/-- A freshly created database: empty table, first rowid is 1. -/
def ShoppingList.empty : ShoppingList := ⟨[], 1⟩

/-- Python `item.barcode or None` (line 39): both `None` and the empty
string are falsy, so an empty barcode is bound as NULL. -/
def pyOrNone : Option String → Option String
  | none => none
  | some s => if s = "" then none else some s

/-- The row INSERTed by `add_item` once the store assigns it `newId`. -/
def persistItem (it : NewItem) (newId : Int) : Item :=
  ⟨newId, it.quantity, it.description, pyOrNone it.barcode, it.last_price, it.to_purchase⟩

/-- Model of `ShoppingList.add_item` (lines 35-41): INSERT with the barcode
normalised by `or None`; the UNIQUE constraint on `barcode` rejects a
duplicate non-NULL barcode (NULLs never conflict) and a failed INSERT
leaves both the table and the AUTOINCREMENT sequence unchanged; on
success `lastrowid` is returned. -/
def ShoppingList.add_item (s : ShoppingList) (item : NewItem) : ShoppingList × Except DBError Int :=
  let b := pyOrNone item.barcode
  if b.isSome && s.items.any (fun r => r.barcode == b) then
    (s, .error .integrityError)
  else
    ({ items := s.items ++ [persistItem item s.nextId], nextId := s.nextId + 1 }, .ok s.nextId)

/-- Model of `ShoppingList.get_all_items` (lines 43-45): SELECT every row. -/
def ShoppingList.get_all_items (s : ShoppingList) : List Item := s.items

/-- Model of `ShoppingList.get_item_by_id` (lines 47-50): SELECT ... WHERE id = ?,
`fetchone` returning the first match or `None`. -/
def ShoppingList.get_item_by_id (s : ShoppingList) (item_id : Int) : Option Item :=
  s.items.find? (fun r => r.id == item_id)

/-- The columns of the `items` table (line 24-31); interpolating any
other name into the SET clause makes the UPDATE fail at prepare time
with "no such column". -/
def columns : List String := ["id", "quantity", "description", "barcode", "last_price", "to_purchase"]

/-- Python truthiness of a read-back cell; every read of `to_purchase`
in the source (`if item.to_purchase`, `not item.to_purchase`) is by
truthiness. -/
def pyTruthy : PyValue → Bool
  | .pyNone => false
  | .pyBool b => b
  | .pyInt n => n != 0
  | .pyStr s => s != ""
  | .pyFloat q => q != 0

/-- Value written into an INTEGER cell. Only integer (and, for
`to_purchase` elsewhere, boolean) writes are exercised by any caller;
the remaining cases are unexercised corners of SQLite's dynamic typing. -/
def pyCellInt : PyValue → Int
  | .pyInt n => n
  | .pyBool b => if b then 1 else 0
  | .pyFloat q => q.floor
  | .pyStr _ => 0
  | .pyNone => 0

/-- Value written into a TEXT cell (TEXT affinity renders numbers as
text); only string writes are exercised by any caller. -/
def pyCellText : PyValue → String
  | .pyStr s => s
  | .pyInt n => toString n
  | .pyBool b => if b then "1" else "0"
  | .pyFloat q => toString q
  | .pyNone => ""

/-- Value written into a nullable TEXT cell. -/
def pyCellTextOpt : PyValue → Option String
  | .pyNone => none
  | v => some (pyCellText v)

/-- Value written into a nullable REAL cell; only `None` flows through
`last_price` in the source. -/
def pyCellRealOpt : PyValue → Option Rat
  | .pyNone => none
  | .pyFloat q => some q
  | .pyInt n => some n
  | .pyBool b => some (if b then 1 else 0)
  | .pyStr _ => some 0

/-- One `key = ?` assignment of the UPDATE's SET clause applied to a row.
The final catch-all is unreachable from `update_item`, which has already
rejected unknown column names. -/
def setField (r : Item) (kv : String × PyValue) : Item :=
  if kv.1 = "id" then { r with id := pyCellInt kv.2 }
  else if kv.1 = "quantity" then { r with quantity := pyCellInt kv.2 }
  else if kv.1 = "description" then { r with description := pyCellText kv.2 }
  else if kv.1 = "barcode" then { r with barcode := pyCellTextOpt kv.2 }
  else if kv.1 = "last_price" then { r with last_price := pyCellRealOpt kv.2 }
  else if kv.1 = "to_purchase" then { r with to_purchase := pyTruthy kv.2 }
  else r

/-- Model of `ShoppingList.update_item` (lines 52-60): builds
`UPDATE items SET k1 = ?, … WHERE id = ?` from the caller's keyword
mapping. An empty mapping yields an empty SET clause (SQL syntax error);
a key that is not a column fails at prepare ("no such column"); both are
`OperationalError`s raised before anything changes. Otherwise every row
matching the id is updated; if an updated row now collides with a
different row on the PRIMARY KEY or the UNIQUE barcode the statement
aborts (`IntegrityError`) and is rolled back. Matching zero rows is not
an error: the UPDATE simply affects no row and is committed. -/
def ShoppingList.update_item (s : ShoppingList) (item_id : Int) (kwargs : List (String × PyValue)) :
    ShoppingList × Except DBError Unit :=
  if kwargs.isEmpty then (s, .error .operationalError)
  else if kwargs.any (fun kv => !(columns.contains kv.1)) then (s, .error .operationalError)
  else
    let upd := fun r => kwargs.foldl setField r
    let updated := (s.items.filter (fun r => r.id == item_id)).map upd
    let others := s.items.filter (fun r => !(r.id == item_id))
    if updated.any (fun r => others.any (fun o => o.id == r.id || (r.barcode.isSome && o.barcode == r.barcode))) then
      (s, .error .integrityError)
    else
      ({ s with items := s.items.map (fun r => if r.id == item_id then upd r else r) }, .ok ())

/-- Model of `ShoppingList.delete_item` (lines 62-64): DELETE ... WHERE id = ?;
matching no row is not an error. -/
def ShoppingList.delete_item (s : ShoppingList) (item_id : Int) : ShoppingList :=
  { s with items := s.items.filter (fun r => !(r.id == item_id)) }

/-- Model of `ShoppingList.get_items_to_purchase` (lines 66-68):
SELECT ... WHERE to_purchase = 1 (the column only ever holds the 0/1
images of Python booleans). -/
def ShoppingList.get_items_to_purchase (s : ShoppingList) : List Item :=
  s.items.filter (fun r => r.to_purchase)

/-- Digit run of Python `int(str)` after the optional sign: at least one
ASCII digit, with single underscores allowed only between digits. The
flag records that the next character must be a digit (true initially and
right after an underscore). -/
def pyDigitsAux : List Char → Nat → Bool → Option Nat
  | [], acc, needDigit => if needDigit then none else some acc
  | c :: cs, acc, needDigit =>
    if c.isDigit then pyDigitsAux cs (acc * 10 + (c.toNat - 48)) false
    else if c = '_' && !needDigit then pyDigitsAux cs acc true
    else none

/-- Strip leading and trailing whitespace, as `int(str)` does before
parsing. -/
def pyStrip (cs : List Char) : List Char :=
  ((cs.dropWhile Char.isWhitespace).reverse.dropWhile Char.isWhitespace).reverse

/-- Python `int(str)`: surrounding whitespace stripped, one optional
sign, then digits; `none` models the `ValueError` raised otherwise.
(Non-ASCII digits and exotic whitespace are not modelled; no caller
feeds them.) -/
def pyIntStr (s : String) : Option Int :=
  match pyStrip s.toList with
  | '+' :: cs => (pyDigitsAux cs 0 true).map Int.ofNat
  | '-' :: cs => (pyDigitsAux cs 0 true).map (fun n => -(Int.ofNat n))
  | cs => (pyDigitsAux cs 0 true).map Int.ofNat

/-- A run of `n` spaces, as produced by format-spec padding. -/
def spaces (n : Nat) : String := String.mk (List.replicate n ' ')

/-- Python `f"{n:w}"` for an integer: right-aligned, space-padded to a
minimum width of `w` (wider values are printed in full). -/
def pyFormatIntW (n : Int) (w : Nat) : String :=
  let s := toString n
  spaces (w - s.length) ++ s

/-- Python `f"{s:<w}"` for a string: left-justified, space-padded to a
minimum width of `w`; a longer string is NOT truncated. -/
def pyLjust (s : String) (w : Nat) : String := s ++ spaces (w - s.length)

/-- The status text of `update_list` (line 234). -/
def statusText (b : Bool) : String := if b then "To Purchase" else "Not to Purchase"

/-- The listbox row built by `update_list` (line 235):
`f"{item.id:2} | {item.quantity:8} | {item.description:<20} | {status}"`. -/
def renderRow (it : Item) : String :=
  pyFormatIntW it.id 2 ++ " | " ++ pyFormatIntW it.quantity 8 ++ " | "
    ++ pyLjust it.description 20 ++ " | " ++ statusText it.to_purchase

/-- The id parse performed by `delete_item` (line 249) and
`toggle_purchase` (line 260) on the selected listbox row:
`int(row.split(':')[0])`; the first piece of a split on `':'` is the
prefix of the row before its first colon (the whole row when it has
none), and `none` models the `ValueError` raised when that piece is not
an integer literal. -/
def parse_selected_id (row : String) : Option Int :=
  pyIntStr (String.mk (row.toList.takeWhile (fun c => c ≠ ':')))

/-- Outcome of a GUI action: a blocking `messagebox.showerror` (store as
it stands), a completed mutation, or an exception the handler does not
catch. -/
inductive AddItemOutcome where
  | errorBox (msg : String) (s : ShoppingList)
  | added (s : ShoppingList)
  | uncaught (e : DBError) (s : ShoppingList)
deriving Repr, DecidableEq

/-- The `Item` constructed by `ShoppingListGUI.add_item` (line 219):
`Item(None, quantity, description, barcode, None, True)` where `barcode`
is the raw entry text (possibly empty). -/
def mkNewItem (q : Int) (d b : String) : NewItem := ⟨q, d, some b, none, true⟩

/-- Model of `ShoppingListGUI.add_item` (lines 204-222): rejects an empty
description or quantity, then a quantity `int()` cannot parse, each with
a blocking error box and no store call; otherwise calls the store's
`add_item` with `to_purchase = True` and `last_price = None`. -/
def ShoppingListGUI.add_item (s : ShoppingList) (description quantity barcode : String) : AddItemOutcome :=
  if description = "" || quantity = "" then
    .errorBox "Description and Quantity are required." s
  else
    match pyIntStr quantity with
    | none => .errorBox "Quantity must be a number." s
    | some q =>
      match s.add_item (mkNewItem q description barcode) with
      | (s', .ok _) => .added s'
      | (s', .error e) => .uncaught e s'

/-- Repeated `add_item` calls, stopping at the first failure (the GUI
layer does not catch store exceptions). -/
def addAll (s : ShoppingList) : List NewItem → Option ShoppingList
  | [] => some s
  | it :: rest =>
    match s.add_item it with
    | (s', .ok _) => addAll s' rest
    | (_, .error _) => none

/-- The rows a run of successful inserts appends, ids counted up from `n`. -/
def persistFrom (n : Int) : List NewItem → List Item
  | [] => []
  | it :: rest => persistItem it n :: persistFrom (n + 1) rest

end PyShopList

namespace PyShopList

/-- The field names the spec recognises as updatable Item attributes. -/
def recognizedFields : List String :=
  ["quantity", "description", "barcode", "last_price", "to_purchase"]

theorem pyOrNone_eq_none_iff (b : Option String) :
    pyOrNone b = none ↔ (b = none ∨ b = some "") := by
  cases b with
  | none => simp [pyOrNone]
  | some s =>
    by_cases h : s = "" <;> simp [pyOrNone, h]

/-- C1: the rendered row for the item `id=7, quantity=3,
description="Milk"` (flagged to purchase) is the pipe-separated string
below, and the id parse that `delete_item` / `toggle_purchase` perform
on it — `int(row.split(':')[0])` — fails (raises `ValueError`), because
the row contains no colon, so the round-trip claimed lossless never
yields the id at all. -/
theorem render_then_parse_loses_id :
    renderRow ⟨7, 3, "Milk", none, none, true⟩
      = " 7 |        3 | Milk                 | To Purchase"
    ∧ parse_selected_id (renderRow ⟨7, 3, "Milk", none, none, true⟩) = none
    ∧ parse_selected_id (renderRow ⟨7, 3, "Milk", none, none, true⟩) ≠ some 7 :=
  ⟨rfl, by decide, by decide⟩

/-- C3: inserting an item whose (non-empty) barcode already occurs in
the table fails with an `IntegrityError` and returns the table — and the
AUTOINCREMENT counter — unchanged. -/
theorem duplicate_barcode_insert_fails (s : ShoppingList) (it : NewItem) (b : String)
    (hb : b ≠ "") (hbc : it.barcode = some b) (hex : ∃ r ∈ s.items, r.barcode = some b) :
    s.add_item it = (s, .error .integrityError) := by
  obtain ⟨r, hr, hrb⟩ := hex
  have hnorm : pyOrNone it.barcode = some b := by simp [pyOrNone, hbc, hb]
  have hany : s.items.any (fun x => x.barcode == some b) = true :=
    List.any_eq_true.mpr ⟨r, hr, by simp [hrb]⟩
  simp [ShoppingList.add_item, hnorm, hany]

/-- C3 witness: with `"X"` already present, a second insert of barcode
`"X"` is rejected and the store is unchanged. -/
theorem duplicate_barcode_insert_fails_witness :
    ShoppingList.add_item ⟨[⟨1, 2, "Bread", some "X", none, true⟩], 2⟩ ⟨1, "Dup", some "X", none, true⟩
      = (⟨[⟨1, 2, "Bread", some "X", none, true⟩], 2⟩, .error .integrityError) :=
  duplicate_barcode_insert_fails ⟨[⟨1, 2, "Bread", some "X", none, true⟩], 2⟩
    ⟨1, "Dup", some "X", none, true⟩ "X" (by decide) rfl ⟨⟨1, 2, "Bread", some "X", none, true⟩, by simp, rfl⟩

/-- C5: `get_items_to_purchase` returns exactly the members of
`get_all_items` whose `to_purchase` flag is true. -/
theorem to_purchase_filter_exact (s : ShoppingList) (it : Item) :
    it ∈ s.get_items_to_purchase ↔ it ∈ s.get_all_items ∧ it.to_purchase = true := by
  simp [ShoppingList.get_items_to_purchase, ShoppingList.get_all_items, List.mem_filter]

/-- C9 counterexample: a 30-character description is not truncated to
the 20-column field — the rendered row carries it in full, so the
description field does not occupy exactly the fixed width. -/
theorem description_field_not_fixed_width_cex :
    renderRow ⟨1, 2, "A very long description indeed", none, none, true⟩
      = " 1 |        2 | A very long description indeed | To Purchase"
    ∧ (pyLjust "A very long description indeed" 20).length ≠ 20 :=
  ⟨rfl, by decide⟩

/-- C9 amended: each row is the fixed composition of id (right-aligned,
min width 2), quantity (right-aligned, min width 8), description
(left-justified, space-padded to a MINIMUM of 20 columns — longer
descriptions are kept whole, not truncated) and the status string; the
description field's width is exactly `max 20 len`. -/
theorem renderRow_structure (it : Item) :
    renderRow it = pyFormatIntW it.id 2 ++ " | " ++ pyFormatIntW it.quantity 8 ++ " | "
        ++ pyLjust it.description 20 ++ " | " ++ statusText it.to_purchase
    ∧ pyLjust it.description 20 = it.description ++ spaces (20 - it.description.length)
    ∧ (pyLjust it.description 20).length = max 20 it.description.length := by
  refine ⟨rfl, rfl, ?_⟩
  simp [pyLjust, spaces, String.length_append]
  omega

theorem filter_ne_id_self (l : List Item) (item_id : Int)
    (h : ∀ r ∈ l, (r.id == item_id) = false) :
    l.filter (fun r => !(r.id == item_id)) = l :=
  List.filter_eq_self.mpr (fun r hr => by rw [h r hr]; rfl)

/-- C7: deleting an id removes every row carrying it, so a subsequent
`get_item_by_id` reports absence and the id appears in neither
`get_all_items` nor `get_items_to_purchase`; deleting again changes
nothing, and deleting an id that is not present leaves the store exactly
as it was (and raises no error — `delete_item` has no failure outcome at
all). -/
theorem delete_semantics (s : ShoppingList) (item_id : Int) :
    (s.delete_item item_id).get_item_by_id item_id = none
    ∧ (∀ it ∈ (s.delete_item item_id).get_all_items, it.id ≠ item_id)
    ∧ (∀ it ∈ (s.delete_item item_id).get_items_to_purchase, it.id ≠ item_id)
    ∧ (s.delete_item item_id).delete_item item_id = s.delete_item item_id
    ∧ (s.get_item_by_id item_id = none → s.delete_item item_id = s) := by
  refine ⟨?_, ?_, ?_, ?_, ?_⟩
  · apply List.find?_eq_none.mpr
    intro x hx
    simp only [ShoppingList.delete_item, List.mem_filter] at hx
    simpa using hx.2
  · intro it hit
    simp only [ShoppingList.delete_item, ShoppingList.get_all_items, List.mem_filter] at hit
    simpa using hit.2
  · intro it hit
    simp only [ShoppingList.delete_item, ShoppingList.get_items_to_purchase,
      List.mem_filter] at hit
    have := hit.1
    simp only [List.mem_filter] at this
    simpa using this.2
  · simp [ShoppingList.delete_item, List.filter_filter]
  · intro h
    have hall : ∀ r ∈ s.items, (r.id == item_id) = false := by
      intro r hr
      have := List.find?_eq_none.mp h r hr
      simpa using this
    have : s.items.filter (fun r => !(r.id == item_id)) = s.items :=
      filter_ne_id_self s.items item_id hall
    simp [ShoppingList.delete_item, this]

/-- C7 witness: deleting id 1 from a one-item store empties it, a second
delete is a no-op, and deleting the absent id 9 changes nothing. -/
theorem delete_semantics_witness :
    ((⟨[⟨1, 2, "Bread", none, none, true⟩], 2⟩ : ShoppingList).delete_item 1).get_item_by_id 1 = none
    ∧ ((⟨[⟨1, 2, "Bread", none, none, true⟩], 2⟩ : ShoppingList).get_item_by_id 9 = none
        → (⟨[⟨1, 2, "Bread", none, none, true⟩], 2⟩ : ShoppingList).delete_item 9
            = ⟨[⟨1, 2, "Bread", none, none, true⟩], 2⟩) :=
  ⟨(delete_semantics ⟨[⟨1, 2, "Bread", none, none, true⟩], 2⟩ 1).1,
   (delete_semantics ⟨[⟨1, 2, "Bread", none, none, true⟩], 2⟩ 9).2.2.2.2⟩

/-- C4: the GUI add handler pops a blocking error box and leaves the
store untouched exactly when the description is empty or the quantity
string fails Python's `int` parse; otherwise the store's create is
invoked. -/
theorem gui_add_validation_iff (s : ShoppingList) (d q b : String) :
    (d = "" ∨ pyIntStr q = none) ↔ ∃ msg, ShoppingListGUI.add_item s d q b = .errorBox msg s := by
  constructor
  · rintro (hd | hq)
    · exact ⟨"Description and Quantity are required.", by simp [ShoppingListGUI.add_item, hd]⟩
    · by_cases hd : d = ""
      · exact ⟨"Description and Quantity are required.", by simp [ShoppingListGUI.add_item, hd]⟩
      · by_cases hqe : q = ""
        · exact ⟨"Description and Quantity are required.", by simp [ShoppingListGUI.add_item, hd, hqe]⟩
        · exact ⟨"Quantity must be a number.", by simp [ShoppingListGUI.add_item, hd, hqe, hq]⟩
  · rintro ⟨msg, hmsg⟩
    by_contra hcon
    push_neg at hcon
    obtain ⟨hd, hq⟩ := hcon
    obtain ⟨n, hn⟩ := Option.ne_none_iff_exists'.mp hq
    have hqe : q ≠ "" := by
      intro h
      rw [h] at hn
      have hnone : pyIntStr "" = none := rfl
      rw [hnone] at hn
      exact Option.noConfusion hn
    rcases hadd : s.add_item (mkNewItem n d b) with ⟨s', r⟩
    cases r <;> simp [ShoppingListGUI.add_item, hd, hqe, hn, hadd] at hmsg

theorem map_update_no_match (l : List Item) (item_id : Int) (f : Item → Item)
    (h : ∀ r ∈ l, (r.id == item_id) = false) :
    l.map (fun r => if r.id == item_id then f r else r) = l := by
  induction l with
  | nil => rfl
  | cons x xs ih =>
    have hx := h x (by simp)
    simp only [List.map_cons]
    rw [if_neg (by simp [hx]), ih (fun r hr => h r (List.mem_cons_of_mem x hr))]

/-- C2 counterexample, both halves of the claim. NotFound half: updating
a `to_purchase` value at id 5 in the empty store — an id that
`get_item_by_id` reports absent — raises no error at all: the UPDATE
matches zero rows and returns `ok`. InvalidField half: the field name
`"id"` is not one of the claim's recognised Item attributes (`quantity`,
`description`, `barcode`, `last_price`, `to_purchase`), yet
`update_item(1, id=9)` does not fail with any InvalidField error — `id`
is a column of the table, so the interpolated `UPDATE items SET id = ?`
succeeds and renames the primary key. -/
theorem update_missing_id_and_id_key_succeed_cex :
    (ShoppingList.get_item_by_id ⟨[], 1⟩ 5 = none
      ∧ ShoppingList.update_item ⟨[], 1⟩ 5 [("to_purchase", .pyBool false)] = (⟨[], 1⟩, .ok ()))
    ∧ ("id" ∉ recognizedFields
      ∧ ShoppingList.update_item ⟨[⟨1, 2, "Bread", none, none, true⟩], 2⟩ 1 [("id", .pyInt 9)]
          = (⟨[⟨9, 2, "Bread", none, none, true⟩], 2⟩, .ok ())) :=
  ⟨⟨rfl, rfl⟩, by decide, rfl⟩

/-- C2 amended: `update_item` accepts exactly the columns of the `items`
table as field names — the five recognised attributes plus `id`. A name
outside that set makes it fail (an `OperationalError`, "no such column")
with the store unchanged; a non-empty mapping using only column names
never raises that error (so updating `id` succeeds rather than failing
with InvalidField); and an update against a missing id with column
names and a non-empty mapping succeeds as a silent no-op — the store is
returned unchanged with no error reported, not a `NotFound` failure. -/
theorem update_invalid_field_and_missing_id (s : ShoppingList) (item_id : Int)
    (kwargs : List (String × PyValue)) :
    ((∃ kv ∈ kwargs, kv.1 ∉ columns) → s.update_item item_id kwargs = (s, .error .operationalError))
    ∧ ((∀ kv ∈ kwargs, kv.1 ∈ columns) → kwargs ≠ [] →
        (s.update_item item_id kwargs).2 ≠ .error .operationalError)
    ∧ (s.get_item_by_id item_id = none → (∀ kv ∈ kwargs, kv.1 ∈ columns) → kwargs ≠ [] →
        s.update_item item_id kwargs = (s, .ok ())) := by
  refine ⟨?_, ?_, ?_⟩
  · rintro ⟨kv, hkv, hmem⟩
    have hbad : kwargs.any (fun kv => !(columns.contains kv.1)) = true := by
      simp only [List.any_eq_true]
      refine ⟨kv, hkv, ?_⟩
      simpa using hmem
    unfold ShoppingList.update_item
    dsimp only
    split_ifs with h1 <;> rfl
  · intro hgood hne
    have hempty : kwargs.isEmpty = false := by
      cases kwargs with
      | nil => exact absurd rfl hne
      | cons a l => rfl
    have hok : kwargs.any (fun kv => !(columns.contains kv.1)) = false := by
      rw [List.any_eq_false]
      intro kv hkv
      simp [hgood kv hkv]
    unfold ShoppingList.update_item
    dsimp only
    split_ifs with h1 h2 h3
    · exact absurd h1 (by simp [hempty])
    · rw [hok] at h2
      simp at h2
    · simp
    · simp
  · intro habs hgood hne
    have hempty : kwargs.isEmpty = false := by
      cases kwargs with
      | nil => exact absurd rfl hne
      | cons a l => rfl
    have hok : kwargs.any (fun kv => !(columns.contains kv.1)) = false := by
      rw [List.any_eq_false]
      intro kv hkv
      simp [hgood kv hkv]
    have hall : ∀ r ∈ s.items, (r.id == item_id) = false := by
      intro r hr
      have := List.find?_eq_none.mp habs r hr
      simpa using this
    have hfilter : s.items.filter (fun r => r.id == item_id) = [] :=
      List.filter_eq_nil_iff.mpr (fun r hr => by simp [hall r hr])
    have hmap := map_update_no_match s.items item_id
      (fun r => kwargs.foldl setField r) hall
    unfold ShoppingList.update_item
    dsimp only
    split_ifs with h1 h2 h3
    · exact absurd h1 (by simp [hempty])
    · rw [hok] at h2
      simp at h2
    · rw [hfilter] at h3
      simp at h3
    · rw [hmap]

/-- C2 witness: a bogus column name is rejected with an operational
error; an update keyed on the column name `id` raises no "no such
column" error; and an update of `to_purchase` at the absent id 7 of a
one-item store succeeds while changing nothing. -/
theorem update_invalid_field_and_missing_id_witness :
    ShoppingList.update_item ⟨[], 1⟩ 5 [("bogus", .pyInt 1)] = (⟨[], 1⟩, .error .operationalError)
    ∧ (ShoppingList.update_item ⟨[⟨1, 2, "Bread", none, none, true⟩], 2⟩ 1
        [("id", .pyInt 9)]).2 ≠ .error .operationalError
    ∧ ShoppingList.update_item ⟨[⟨1, 2, "Bread", none, none, true⟩], 2⟩ 7
        [("to_purchase", .pyBool false)]
      = (⟨[⟨1, 2, "Bread", none, none, true⟩], 2⟩, .ok ()) :=
  ⟨(update_invalid_field_and_missing_id ⟨[], 1⟩ 5 [("bogus", .pyInt 1)]).1
      ⟨("bogus", .pyInt 1), by simp, by decide⟩,
   (update_invalid_field_and_missing_id ⟨[⟨1, 2, "Bread", none, none, true⟩], 2⟩ 1
      [("id", .pyInt 9)]).2.1 (by decide) (by decide),
   (update_invalid_field_and_missing_id ⟨[⟨1, 2, "Bread", none, none, true⟩], 2⟩ 7
      [("to_purchase", .pyBool false)]).2.2 (by decide) (by decide) (by decide)⟩

theorem setField_id_of_ne (r : Item) (kv : String × PyValue) (h : kv.1 ≠ "id") :
    (setField r kv).id = r.id := by
  unfold setField
  split_ifs <;> simp_all

theorem setField_quantity_of_ne (r : Item) (kv : String × PyValue) (h : kv.1 ≠ "quantity") :
    (setField r kv).quantity = r.quantity := by
  unfold setField
  split_ifs <;> simp_all

theorem setField_description_of_ne (r : Item) (kv : String × PyValue) (h : kv.1 ≠ "description") :
    (setField r kv).description = r.description := by
  unfold setField
  split_ifs <;> simp_all

theorem setField_barcode_of_ne (r : Item) (kv : String × PyValue) (h : kv.1 ≠ "barcode") :
    (setField r kv).barcode = r.barcode := by
  unfold setField
  split_ifs <;> simp_all

theorem setField_last_price_of_ne (r : Item) (kv : String × PyValue) (h : kv.1 ≠ "last_price") :
    (setField r kv).last_price = r.last_price := by
  unfold setField
  split_ifs <;> simp_all

theorem setField_to_purchase_of_ne (r : Item) (kv : String × PyValue) (h : kv.1 ≠ "to_purchase") :
    (setField r kv).to_purchase = r.to_purchase := by
  unfold setField
  split_ifs <;> simp_all

theorem foldl_setField_preserve {α : Type} (proj : Item → α) (name : String)
    (hstep : ∀ r kv, kv.1 ≠ name → proj (setField r kv) = proj r) :
    ∀ (kwargs : List (String × PyValue)) (r : Item),
      (∀ kv ∈ kwargs, kv.1 ≠ name) → proj (kwargs.foldl setField r) = proj r := by
  intro kwargs
  induction kwargs with
  | nil => intro r _; rfl
  | cons kv rest ih =>
    intro r h
    rw [List.foldl_cons, ih _ (fun x hx => h x (List.mem_cons_of_mem kv hx))]
    exact hstep r kv (h kv (by simp))

/-- C8: a successful `update_item` whose mapping uses only the
recognised Item attributes (`quantity`, `description`, `barcode`,
`last_price`, `to_purchase`) changes nothing but the given fields of the
targeted row: table length is preserved, every row at a different id is
identical, the target row keeps its id, and each of its fields not named
in the mapping keeps its value — so toggling one item's `to_purchase`
affects no other item and no other field. -/
theorem update_frame (s : ShoppingList) (item_id : Int) (kwargs : List (String × PyValue))
    (s' : ShoppingList)
    (hkeys : ∀ kv ∈ kwargs, kv.1 ∈ recognizedFields)
    (hok : s.update_item item_id kwargs = (s', .ok ())) :
    s'.items.length = s.items.length
    ∧ ∀ (k : Nat) (hk : k < s.items.length) (hk' : k < s'.items.length),
        ((s.items[k]).id ≠ item_id → s'.items[k] = s.items[k])
        ∧ (s'.items[k]).id = (s.items[k]).id
        ∧ ("quantity" ∉ kwargs.map Prod.fst → (s'.items[k]).quantity = (s.items[k]).quantity)
        ∧ ("description" ∉ kwargs.map Prod.fst → (s'.items[k]).description = (s.items[k]).description)
        ∧ ("barcode" ∉ kwargs.map Prod.fst → (s'.items[k]).barcode = (s.items[k]).barcode)
        ∧ ("last_price" ∉ kwargs.map Prod.fst → (s'.items[k]).last_price = (s.items[k]).last_price)
        ∧ ("to_purchase" ∉ kwargs.map Prod.fst → (s'.items[k]).to_purchase = (s.items[k]).to_purchase) := by
  unfold ShoppingList.update_item at hok
  dsimp only at hok
  split_ifs at hok with h1 h2 h3
  · exact absurd (congrArg Prod.snd hok) (by simp)
  · exact absurd (congrArg Prod.snd hok) (by simp)
  · exact absurd (congrArg Prod.snd hok) (by simp)
  · have ha := congrArg Prod.fst hok
    dsimp only at ha
    subst ha
    refine ⟨by simp, ?_⟩
    intro k hk hk'
    simp only [List.getElem_map]
    refine ⟨?_, ?_, ?_, ?_, ?_, ?_, ?_⟩
    · intro hne
      rw [if_neg (by simp [hne])]
    · by_cases hc : (s.items[k].id == item_id) = true
      · rw [if_pos hc]
        exact foldl_setField_preserve Item.id "id" setField_id_of_ne kwargs _
          (fun kv hkv hbad => absurd (hbad ▸ hkeys kv hkv) (by decide))
      · rw [if_neg hc]
    · intro hnot
      by_cases hc : (s.items[k].id == item_id) = true
      · rw [if_pos hc]
        exact foldl_setField_preserve Item.quantity "quantity" setField_quantity_of_ne kwargs _
          (fun kv hkv hbad => hnot (hbad ▸ List.mem_map_of_mem Prod.fst hkv))
      · rw [if_neg hc]
    · intro hnot
      by_cases hc : (s.items[k].id == item_id) = true
      · rw [if_pos hc]
        exact foldl_setField_preserve Item.description "description" setField_description_of_ne kwargs _
          (fun kv hkv hbad => hnot (hbad ▸ List.mem_map_of_mem Prod.fst hkv))
      · rw [if_neg hc]
    · intro hnot
      by_cases hc : (s.items[k].id == item_id) = true
      · rw [if_pos hc]
        exact foldl_setField_preserve Item.barcode "barcode" setField_barcode_of_ne kwargs _
          (fun kv hkv hbad => hnot (hbad ▸ List.mem_map_of_mem Prod.fst hkv))
      · rw [if_neg hc]
    · intro hnot
      by_cases hc : (s.items[k].id == item_id) = true
      · rw [if_pos hc]
        exact foldl_setField_preserve Item.last_price "last_price" setField_last_price_of_ne kwargs _
          (fun kv hkv hbad => hnot (hbad ▸ List.mem_map_of_mem Prod.fst hkv))
      · rw [if_neg hc]
    · intro hnot
      by_cases hc : (s.items[k].id == item_id) = true
      · rw [if_pos hc]
        exact foldl_setField_preserve Item.to_purchase "to_purchase" setField_to_purchase_of_ne kwargs _
          (fun kv hkv hbad => hnot (hbad ▸ List.mem_map_of_mem Prod.fst hkv))
      · rw [if_neg hc]

/-- C8 witness: toggling `to_purchase` of item 1 in a two-item store
leaves the second item and every other field of item 1 unchanged. -/
theorem update_frame_witness :
    (⟨[⟨1, 2, "Bread", none, none, false⟩, ⟨2, 1, "Eggs", none, none, false⟩], 3⟩ : ShoppingList).items.length
      = (⟨[⟨1, 2, "Bread", none, none, true⟩, ⟨2, 1, "Eggs", none, none, false⟩], 3⟩ : ShoppingList).items.length
    ∧ ∀ (k : Nat)
        (hk : k < (⟨[⟨1, 2, "Bread", none, none, true⟩, ⟨2, 1, "Eggs", none, none, false⟩], 3⟩ : ShoppingList).items.length)
        (hk' : k < (⟨[⟨1, 2, "Bread", none, none, false⟩, ⟨2, 1, "Eggs", none, none, false⟩], 3⟩ : ShoppingList).items.length),
        (((⟨[⟨1, 2, "Bread", none, none, true⟩, ⟨2, 1, "Eggs", none, none, false⟩], 3⟩ : ShoppingList).items[k]).id ≠ 1
          → (⟨[⟨1, 2, "Bread", none, none, false⟩, ⟨2, 1, "Eggs", none, none, false⟩], 3⟩ : ShoppingList).items[k]
              = (⟨[⟨1, 2, "Bread", none, none, true⟩, ⟨2, 1, "Eggs", none, none, false⟩], 3⟩ : ShoppingList).items[k])
        ∧ ((⟨[⟨1, 2, "Bread", none, none, false⟩, ⟨2, 1, "Eggs", none, none, false⟩], 3⟩ : ShoppingList).items[k]).id
            = ((⟨[⟨1, 2, "Bread", none, none, true⟩, ⟨2, 1, "Eggs", none, none, false⟩], 3⟩ : ShoppingList).items[k]).id
        ∧ ("quantity" ∉ [("to_purchase", PyValue.pyBool false)].map Prod.fst
          → ((⟨[⟨1, 2, "Bread", none, none, false⟩, ⟨2, 1, "Eggs", none, none, false⟩], 3⟩ : ShoppingList).items[k]).quantity
              = ((⟨[⟨1, 2, "Bread", none, none, true⟩, ⟨2, 1, "Eggs", none, none, false⟩], 3⟩ : ShoppingList).items[k]).quantity)
        ∧ ("description" ∉ [("to_purchase", PyValue.pyBool false)].map Prod.fst
          → ((⟨[⟨1, 2, "Bread", none, none, false⟩, ⟨2, 1, "Eggs", none, none, false⟩], 3⟩ : ShoppingList).items[k]).description
              = ((⟨[⟨1, 2, "Bread", none, none, true⟩, ⟨2, 1, "Eggs", none, none, false⟩], 3⟩ : ShoppingList).items[k]).description)
        ∧ ("barcode" ∉ [("to_purchase", PyValue.pyBool false)].map Prod.fst
          → ((⟨[⟨1, 2, "Bread", none, none, false⟩, ⟨2, 1, "Eggs", none, none, false⟩], 3⟩ : ShoppingList).items[k]).barcode
              = ((⟨[⟨1, 2, "Bread", none, none, true⟩, ⟨2, 1, "Eggs", none, none, false⟩], 3⟩ : ShoppingList).items[k]).barcode)
        ∧ ("last_price" ∉ [("to_purchase", PyValue.pyBool false)].map Prod.fst
          → ((⟨[⟨1, 2, "Bread", none, none, false⟩, ⟨2, 1, "Eggs", none, none, false⟩], 3⟩ : ShoppingList).items[k]).last_price
              = ((⟨[⟨1, 2, "Bread", none, none, true⟩, ⟨2, 1, "Eggs", none, none, false⟩], 3⟩ : ShoppingList).items[k]).last_price)
        ∧ ("to_purchase" ∉ [("to_purchase", PyValue.pyBool false)].map Prod.fst
          → ((⟨[⟨1, 2, "Bread", none, none, false⟩, ⟨2, 1, "Eggs", none, none, false⟩], 3⟩ : ShoppingList).items[k]).to_purchase
              = ((⟨[⟨1, 2, "Bread", none, none, true⟩, ⟨2, 1, "Eggs", none, none, false⟩], 3⟩ : ShoppingList).items[k]).to_purchase) :=
  update_frame ⟨[⟨1, 2, "Bread", none, none, true⟩, ⟨2, 1, "Eggs", none, none, false⟩], 3⟩ 1
    [("to_purchase", PyValue.pyBool false)]
    ⟨[⟨1, 2, "Bread", none, none, false⟩, ⟨2, 1, "Eggs", none, none, false⟩], 3⟩
    (by decide) rfl

theorem persistFrom_length (l : List NewItem) : ∀ (n : Int), (persistFrom n l).length = l.length := by
  induction l with
  | nil => intro n; rfl
  | cons it rest ih => intro n; simp [persistFrom, ih]

theorem persistFrom_getElem (l : List NewItem) :
    ∀ (n : Int) (k : Nat) (hk : k < l.length) (hk' : k < (persistFrom n l).length),
      (persistFrom n l)[k] = persistItem l[k] (n + k) := by
  induction l with
  | nil => intro n k hk; exact absurd hk (by simp)
  | cons it rest ih =>
    intro n k hk hk'
    cases k with
    | zero => simp [persistFrom]
    | succ k =>
      have hk2 : k < rest.length := by simpa using hk
      have hk2' : k < (persistFrom (n + 1) rest).length := by rw [persistFrom_length]; exact hk2
      calc (persistFrom n (it :: rest))[k + 1]
          = (persistFrom (n + 1) rest)[k] := by simp [persistFrom]
        _ = persistItem rest[k] ((n + 1) + k) := ih (n + 1) k hk2 hk2'
        _ = persistItem (it :: rest)[k + 1] (n + (k + 1)) := by
              rw [List.getElem_cons_succ]
              congr 1 <;> omega

theorem persistFrom_id_ge (l : List NewItem) :
    ∀ (n : Int) (r : Item), r ∈ persistFrom n l → n ≤ r.id := by
  induction l with
  | nil => intro n r h; cases h
  | cons it rest ih =>
    intro n r h
    rcases List.mem_cons.mp h with h0 | h1
    · rw [h0]; exact le_refl n
    · exact le_trans (by omega) (ih (n + 1) r h1)

theorem persistFrom_ids_nodup (l : List NewItem) :
    ∀ (n : Int), ((persistFrom n l).map Item.id).Nodup := by
  induction l with
  | nil => intro n; simp [persistFrom]
  | cons it rest ih =>
    intro n
    rw [persistFrom, List.map_cons, List.nodup_cons]
    refine ⟨?_, ih (n + 1)⟩
    intro hmem
    obtain ⟨r, hr, hrid⟩ := List.mem_map.mp hmem
    have := persistFrom_id_ge rest (n + 1) r hr
    rw [hrid] at this
    simp [persistItem] at this

theorem persistFrom_mem_shape (l : List NewItem) :
    ∀ (n : Int) (r : Item), r ∈ persistFrom n l → ∃ it ∈ l, ∃ m : Int, r = persistItem it m := by
  induction l with
  | nil => intro n r h; cases h
  | cons it rest ih =>
    intro n r h
    rcases List.mem_cons.mp h with h0 | h1
    · exact ⟨it, by simp, n, h0⟩
    · obtain ⟨it', hit', m, hm⟩ := ih (n + 1) r h1
      exact ⟨it', by simp [hit'], m, hm⟩

theorem addAll_some_shape (l : List NewItem) :
    ∀ (s s' : ShoppingList), addAll s l = some s' →
      s'.items = s.items ++ persistFrom s.nextId l ∧ s'.nextId = s.nextId + l.length := by
  induction l with
  | nil =>
    intro s s' h
    obtain rfl : s = s' := by simpa [addAll] using h
    simp [persistFrom]
  | cons it rest ih =>
    intro s s' h
    rw [addAll] at h
    rcases hadd : s.add_item it with ⟨s1, r⟩
    rw [hadd] at h
    cases r with
    | error e => simp at h
    | ok v =>
      dsimp only at h
      unfold ShoppingList.add_item at hadd
      dsimp only at hadd
      split_ifs at hadd with hc
      · exact absurd (congrArg Prod.snd hadd) (by simp)
      · have ha := congrArg Prod.fst hadd
        dsimp only at ha
        rw [← ha] at h
        obtain ⟨h1, h2⟩ := ih _ s' h
        dsimp only at h1 h2
        constructor
        · rw [h1, persistFrom, List.append_assoc]
          rfl
        · simp only [h2, List.length_cons]
          push_cast
          ring

theorem addAll_empty_barcodes (l : List NewItem) :
    ∀ (s : ShoppingList), (∀ it ∈ l, pyOrNone it.barcode = none) →
      ∃ s', addAll s l = some s' := by
  induction l with
  | nil => intro s _; exact ⟨s, rfl⟩
  | cons it rest ih =>
    intro s h
    have hb : pyOrNone it.barcode = none := h it (by simp)
    have hadd : s.add_item it
        = ({ items := s.items ++ [persistItem it s.nextId], nextId := s.nextId + 1 }, .ok s.nextId) := by
      unfold ShoppingList.add_item
      dsimp only
      rw [if_neg (by simp [hb])]
    obtain ⟨s', hs'⟩ := ih { items := s.items ++ [persistItem it s.nextId], nextId := s.nextId + 1 }
      (fun x hx => h x (List.mem_cons_of_mem it hx))
    refine ⟨s', ?_⟩
    rw [addAll, hadd]
    exact hs'

/-- C6 counterexample: creating one item whose input barcode field is
the empty string stores it with barcode NULL — the persisted row does
NOT match its input barcode field `some ""`. -/
theorem add_empty_barcode_not_input_cex :
    (ShoppingList.empty.add_item (mkNewItem 1 "Milk" "")).1.get_all_items.map Item.barcode
      ≠ [(mkNewItem 1 "Milk" "").barcode]
    ∧ (ShoppingList.empty.add_item (mkNewItem 1 "Milk" "")).1.get_all_items.map Item.barcode = [none]
    ∧ (mkNewItem 1 "Milk" "").barcode = some "" :=
  ⟨by decide, rfl, rfl⟩

/-- C6 amended: after N successful creates from the empty store via the
GUI add flow (`to_purchase = true`, `last_price` unset, barcode taken
from the entry text), `get_all_items` returns exactly N items with
pairwise distinct assigned ids, the k-th matching the k-th input's
quantity and description exactly, its barcode equal to the input barcode
normalised by `or None` (an empty entry is stored as NULL), with
`to_purchase` true and `last_price` unset. -/
theorem addAll_matches_inputs (inputs : List (Int × String × String)) (s' : ShoppingList)
    (h : addAll ShoppingList.empty (inputs.map (fun t => mkNewItem t.1 t.2.1 t.2.2)) = some s') :
    s'.get_all_items.length = inputs.length
    ∧ (s'.get_all_items.map Item.id).Nodup
    ∧ ∀ (k : Nat) (hk : k < inputs.length) (hk' : k < s'.get_all_items.length),
        (s'.get_all_items[k]).quantity = (inputs[k]).1
        ∧ (s'.get_all_items[k]).description = (inputs[k]).2.1
        ∧ (s'.get_all_items[k]).barcode = pyOrNone (some (inputs[k]).2.2)
        ∧ (s'.get_all_items[k]).to_purchase = true
        ∧ (s'.get_all_items[k]).last_price = none := by
  obtain ⟨sitems, snext⟩ := s'
  obtain ⟨h1, h2⟩ := addAll_some_shape _ _ _ h
  dsimp only at h1 h2
  rw [show ShoppingList.empty.items = [] from rfl, show ShoppingList.empty.nextId = 1 from rfl,
    List.nil_append] at h1
  dsimp only [ShoppingList.get_all_items]
  subst h1
  refine ⟨?_, persistFrom_ids_nodup _ 1, ?_⟩
  · rw [persistFrom_length, List.length_map]
  · intro k hk hk'
    have hkm : k < (inputs.map (fun t => mkNewItem t.1 t.2.1 t.2.2)).length := by
      rw [List.length_map]; exact hk
    rw [persistFrom_getElem _ 1 k hkm hk', List.getElem_map]
    exact ⟨rfl, rfl, rfl, rfl, rfl⟩

/-- C6 witness: two successful creates (one with an empty barcode entry,
one with barcode "111") yield exactly the two matching rows with ids 1
and 2. -/
theorem addAll_matches_inputs_witness :
    (⟨[⟨1, 2, "Bread", none, none, true⟩, ⟨2, 1, "Milk", some "111", none, true⟩], 3⟩ : ShoppingList).get_all_items.length
      = [((2 : Int), "Bread", ""), ((1 : Int), "Milk", "111")].length
    ∧ ((⟨[⟨1, 2, "Bread", none, none, true⟩, ⟨2, 1, "Milk", some "111", none, true⟩], 3⟩ : ShoppingList).get_all_items.map Item.id).Nodup
    ∧ ∀ (k : Nat) (hk : k < [((2 : Int), "Bread", ""), ((1 : Int), "Milk", "111")].length)
        (hk' : k < (⟨[⟨1, 2, "Bread", none, none, true⟩, ⟨2, 1, "Milk", some "111", none, true⟩], 3⟩ : ShoppingList).get_all_items.length),
        ((⟨[⟨1, 2, "Bread", none, none, true⟩, ⟨2, 1, "Milk", some "111", none, true⟩], 3⟩ : ShoppingList).get_all_items[k]).quantity
            = ([((2 : Int), "Bread", ""), ((1 : Int), "Milk", "111")][k]).1
        ∧ ((⟨[⟨1, 2, "Bread", none, none, true⟩, ⟨2, 1, "Milk", some "111", none, true⟩], 3⟩ : ShoppingList).get_all_items[k]).description
            = ([((2 : Int), "Bread", ""), ((1 : Int), "Milk", "111")][k]).2.1
        ∧ ((⟨[⟨1, 2, "Bread", none, none, true⟩, ⟨2, 1, "Milk", some "111", none, true⟩], 3⟩ : ShoppingList).get_all_items[k]).barcode
            = pyOrNone (some ([((2 : Int), "Bread", ""), ((1 : Int), "Milk", "111")][k]).2.2)
        ∧ ((⟨[⟨1, 2, "Bread", none, none, true⟩, ⟨2, 1, "Milk", some "111", none, true⟩], 3⟩ : ShoppingList).get_all_items[k]).to_purchase = true
        ∧ ((⟨[⟨1, 2, "Bread", none, none, true⟩, ⟨2, 1, "Milk", some "111", none, true⟩], 3⟩ : ShoppingList).get_all_items[k]).last_price = none :=
  addAll_matches_inputs [((2 : Int), "Bread", ""), ((1 : Int), "Milk", "111")]
    ⟨[⟨1, 2, "Bread", none, none, true⟩, ⟨2, 1, "Milk", some "111", none, true⟩], 3⟩ rfl

/-- C10: any number of creates whose barcode input is absent or the
empty string all succeed (the `or None` normalisation stores NULL, and
NULLs never violate the UNIQUE constraint); every row so created is
returned by `get_all_items` — the table is exactly the old rows followed
by the new ones — with barcode `none`, and whenever `get_item_by_id`
returns one of the new rows its barcode is `none`, never `some ""`. -/
theorem empty_barcode_normalized (s : ShoppingList) (inputs : List NewItem)
    (h : ∀ it ∈ inputs, it.barcode = none ∨ it.barcode = some "") :
    ∃ s', addAll s inputs = some s'
      ∧ s'.items = s.items ++ persistFrom s.nextId inputs
      ∧ (∀ r ∈ persistFrom s.nextId inputs, r.barcode = none)
      ∧ (∀ item_id r, s'.get_item_by_id item_id = some r → r ∉ s.items → r.barcode = none) := by
  have h' : ∀ it ∈ inputs, pyOrNone it.barcode = none :=
    fun it hit => (pyOrNone_eq_none_iff _).mpr (h it hit)
  obtain ⟨s', hs'⟩ := addAll_empty_barcodes inputs s h'
  obtain ⟨h1, _⟩ := addAll_some_shape inputs s s' hs'
  have hbar : ∀ r ∈ persistFrom s.nextId inputs, r.barcode = none := by
    intro r hr
    obtain ⟨it, hit, m, rfl⟩ := persistFrom_mem_shape inputs s.nextId r hr
    simp [persistItem, h' it hit]
  refine ⟨s', hs', h1, hbar, ?_⟩
  intro item_id r hfind hnot
  have hmem : r ∈ s'.items := List.mem_of_find?_eq_some hfind
  rw [h1] at hmem
  rcases List.mem_append.mp hmem with hin | hin
  · exact absurd hin hnot
  · exact hbar r hin

/-- C10 witness: two creates, one with barcode `""` and one with no
barcode, both succeed and both rows are stored with barcode `none`. -/
theorem empty_barcode_normalized_witness :
    ∃ s', addAll ShoppingList.empty [⟨1, "Eggs", some "", none, true⟩, ⟨2, "Tea", none, none, true⟩] = some s'
      ∧ s'.items = ShoppingList.empty.items
          ++ persistFrom ShoppingList.empty.nextId [⟨1, "Eggs", some "", none, true⟩, ⟨2, "Tea", none, none, true⟩]
      ∧ (∀ r ∈ persistFrom ShoppingList.empty.nextId [⟨1, "Eggs", some "", none, true⟩, ⟨2, "Tea", none, none, true⟩],
          r.barcode = none)
      ∧ (∀ item_id r, s'.get_item_by_id item_id = some r → r ∉ ShoppingList.empty.items → r.barcode = none) :=
  empty_barcode_normalized ShoppingList.empty
    [⟨1, "Eggs", some "", none, true⟩, ⟨2, "Tea", none, none, true⟩] (by decide)
